import Mathlib

/-!
Verification development for the cost-accounting core of the
biopaper-parser repository: the pricing table (`model_config.py`)
and the cost ledger (`cost_monitor.py`).

Modelling conventions:
* Python floats are modelled as exact rationals (`ℚ`); the numeric
  literals of the source are preserved exactly.
* Python dicts are modelled as insertion-ordered association lists
  over `String` keys, with Python's `get`/item-assignment semantics.
* `raise ValueError(...)` is modelled with `Except String`.
* Logging and filesystem side effects are out of the ledger state;
  the persisted file store is modelled as `String → Option Json`.
-/

/-- The `ModelPricing` dataclass of `model_config.py`
(prices are per 1M tokens). -/
structure ModelPricing where
  input_price : ℚ
  cached_input_price : ℚ
  output_price : ℚ
  description : String
deriving DecidableEq, Repr

/-- The `MODEL_PRICING` registry of `model_config.py`, an
insertion-ordered association list with the exact constants of the
source. -/
def MODEL_PRICING : List (String × ModelPricing) :=
  [ ("gpt-4.1",
      { input_price := 2.00, cached_input_price := 0.50,
        output_price := 8.00,
        description := "Smartest model for complex tasks" }),
    ("gpt-4.1-mini",
      { input_price := 0.40, cached_input_price := 0.10,
        output_price := 1.60,
        description := "Affordable model balancing speed and intelligence" }),
    ("gpt-4.1-nano",
      { input_price := 0.100, cached_input_price := 0.025,
        output_price := 0.400,
        description := "Fastest, most cost-effective model for low-latency tasks" }),
    ("o3",
      { input_price := 10.00, cached_input_price := 2.50,
        output_price := 40.00,
        description := "Most powerful reasoning model with leading performance on coding, math, science, and vision" }),
    ("o4-mini",
      { input_price := 1.100, cached_input_price := 0.275,
        output_price := 4.400,
        description := "Faster, cost-efficient reasoning model delivering strong performance on math, coding and vision" }) ]

/-- `get_model_info` of `model_config.py`: looks the model up in
`MODEL_PRICING` and raises `ValueError(f"Unknown model: {model_name}")`
when absent. -/
def get_model_info (model_name : String) : Except String ModelPricing :=
  match MODEL_PRICING.find? (fun p => p.1 == model_name) with
  | some p => Except.ok p.2
  | none => Except.error ("Unknown model: " ++ model_name)

/-- Python `d.get(k)` on an association-list dict. -/
def dictGet : List (String × ℚ) → String → Option ℚ
  | [], _ => none
  | (k', v') :: rest, k => if k' == k then some v' else dictGet rest k

/-- Python `d.get(k, v₀)`. -/
def dictGetD (d : List (String × ℚ)) (k : String) (v₀ : ℚ) : ℚ :=
  (dictGet d k).getD v₀

/-- Python `d[k] = v`: replaces the value in place when the key is
present, appends otherwise (insertion-order semantics of dict). -/
def dictSet : List (String × ℚ) → String → ℚ → List (String × ℚ)
  | [], k, v => [(k, v)]
  | (k', v') :: rest, k, v =>
      if k' == k then (k, v) :: rest else (k', v') :: dictSet rest k v

/-- The mutable cost-tracking state of `CostMonitor.__init__`
(`cost_monitor.py` lines 17–19); the log directory and logger are
I/O-only and carry no ledger state. -/
structure CostMonitor where
  total_cost : ℚ
  cost_by_model : List (String × ℚ)
  cost_by_file : List (String × ℚ)
deriving DecidableEq, Repr

/-- Freshly constructed monitor: `total_cost = 0.0`, both dicts empty. -/
def CostMonitor.init : CostMonitor :=
  { total_cost := 0, cost_by_model := [], cost_by_file := [] }

/-- `CostMonitor.calculate_cost` (`cost_monitor.py` lines 35–39). -/
def calculate_cost (model_info : ModelPricing) (input_tokens output_tokens : ℤ)
    (is_cached : Bool) : ℚ :=
  let input_cost := ((input_tokens : ℚ) / 1000000) *
    (if is_cached then model_info.cached_input_price else model_info.input_price)
  let output_cost := ((output_tokens : ℚ) / 1000000) * model_info.output_price
  input_cost + output_cost

/-- `CostMonitor.log_request` (`cost_monitor.py` lines 41–62): resolves
the price record through `get_model_info` when `model_info` is `None`,
computes the cost, and adds it to the three aggregates with
`d.get(key, 0) + cost` item assignments.  Returns the updated monitor
together with the incremental cost of this call. -/
def log_request (m : CostMonitor) (model_name file_path : String)
    (input_tokens output_tokens : ℤ) (is_cached : Bool)
    (model_info : Option ModelPricing) :
    Except String (CostMonitor × ℚ) :=
  match (match model_info with
         | some mi => Except.ok mi
         | none => get_model_info model_name : Except String ModelPricing) with
  | Except.error e => Except.error e
  | Except.ok mi =>
    let cost := calculate_cost mi input_tokens output_tokens is_cached
    Except.ok
      ({ total_cost := m.total_cost + cost,
         cost_by_model :=
           dictSet m.cost_by_model model_name
             (dictGetD m.cost_by_model model_name 0 + cost),
         cost_by_file :=
           dictSet m.cost_by_file file_path
             (dictGetD m.cost_by_file file_path 0 + cost) }, cost)

/-- The structure returned by `CostMonitor.get_summary`
(`cost_monitor.py` lines 64–71): total cost, both per-key dicts, and
the snapshot timestamp (`datetime.now().isoformat()`, modelled as a
clock value supplied by the environment). -/
structure Summary where
  total_cost : ℚ
  cost_by_model : List (String × ℚ)
  cost_by_file : List (String × ℚ)
  timestamp : String
deriving DecidableEq, Repr

/-- `CostMonitor.get_summary`: reads the three aggregates of the
monitor at call time and stamps the snapshot with the current clock. -/
def get_summary (m : CostMonitor) (now : String) : Summary :=
  { total_cost := m.total_cost,
    cost_by_model := m.cost_by_model,
    cost_by_file := m.cost_by_file,
    timestamp := now }

/-- JSON values as written by `json.dump` for the summary document:
numbers, strings and string-keyed objects. -/
inductive Json where
  | num : ℚ → Json
  | str : String → Json
  | obj : List (String × Json) → Json
deriving Repr

/-- Serialization of a cost dict to a JSON object. -/
def dictToJson (d : List (String × ℚ)) : List (String × Json) :=
  d.map (fun p => (p.1, Json.num p.2))

/-- Parse a JSON object back into a cost dict; fails when a value is
not a number. -/
def dictOfJson : List (String × Json) → Option (List (String × ℚ))
  | [] => some []
  | (k, Json.num q) :: rest => (dictOfJson rest).map (fun d => (k, q) :: d)
  | _ => none

/-- The JSON document `json.dump(summary, f)` writes in
`CostMonitor.save_summary`. -/
def Summary.toJson (s : Summary) : Json :=
  Json.obj
    [ ("total_cost", Json.num s.total_cost),
      ("cost_by_model", Json.obj (dictToJson s.cost_by_model)),
      ("cost_by_file", Json.obj (dictToJson s.cost_by_file)),
      ("timestamp", Json.str s.timestamp) ]

/-- Reload a persisted summary document from its JSON form. -/
def Json.toSummary : Json → Option Summary
  | Json.obj
      [ ("total_cost", Json.num t),
        ("cost_by_model", Json.obj bm),
        ("cost_by_file", Json.obj bf),
        ("timestamp", Json.str ts) ] =>
    match dictOfJson bm, dictOfJson bf with
    | some m, some f =>
        some { total_cost := t, cost_by_model := m,
               cost_by_file := f, timestamp := ts }
    | _, _ => none
  | _ => none

/-- A file store mapping destination names to persisted documents. -/
abbrev FileStore : Type := String → Option Json

/-- `CostMonitor.save_summary` (`cost_monitor.py` lines 73–78):
serializes the current `get_summary()` and writes it to `output_file`
with `open(output_file, 'w')`, overwriting any previous content. -/
def save_summary (m : CostMonitor) (now : String) (fs : FileStore)
    (output_file : String) : FileStore :=
  fun name => if name = output_file then some (get_summary m now).toJson else fs name

/-- One pending request: model name, file path, input tokens, output
tokens, cached flag. -/
structure Request where
  model_name : String
  file_path : String
  input_tokens : ℤ
  output_tokens : ℤ
  is_cached : Bool
deriving DecidableEq, Repr

/-- Run a batch of `log_request` calls that resolve their price record
through the registry, collecting the returned incremental costs.  A
call that raises `UnknownModelError` leaves the ledger unchanged and
contributes no cost (the batch driver catches the exception and moves
on). -/
def runLog (m : CostMonitor) : List Request → CostMonitor × List ℚ
  | [] => (m, [])
  | r :: rest =>
    match log_request m r.model_name r.file_path r.input_tokens
        r.output_tokens r.is_cached none with
    | Except.ok (m', cost) =>
        let (m'', costs) := runLog m' rest
        (m'', cost :: costs)
    | Except.error _ => runLog m rest

/-!
Reference-semantics model.  In Python, `CostMonitor.get_summary` puts
the attribute objects themselves into the returned dict:
`"cost_by_model": self.cost_by_model` stores a reference to the same
mutable dict the monitor keeps mutating, while `total_cost` (a float)
is copied by value.  To reason about this sharing, the `Ref` namespace
re-embeds the monitor with its two dicts living in an explicit heap of
dict objects; everything else is translated from the same source
lines as the pure model above.
-/

namespace Ref

/-- A heap of Python dict objects, addressed by allocation index. -/
abbrev Store : Type := List (List (String × ℚ))

/-- Dereference a dict object. -/
def Store.read (st : Store) (r : Nat) : List (String × ℚ) :=
  st.getD r []

/-- In-place mutation of a dict object. -/
def Store.write (st : Store) (r : Nat) (d : List (String × ℚ)) : Store :=
  st.set r d

/-- `CostMonitor` with its two dict attributes as heap references. -/
structure Monitor where
  total_cost : ℚ
  cost_by_model : Nat
  cost_by_file : Nat
deriving DecidableEq, Repr

/-- `CostMonitor.__init__`: allocates two fresh empty dicts. -/
def init (st : Store) : Store × Monitor :=
  (st ++ [[], []],
   { total_cost := 0, cost_by_model := st.length,
     cost_by_file := st.length + 1 })

/-- The object `get_summary` returns: `total_cost` and `timestamp` are
immutable values, `cost_by_model` and `cost_by_file` are references to
the monitor's own dicts. -/
structure SummaryRef where
  total_cost : ℚ
  cost_by_model : Nat
  cost_by_file : Nat
  timestamp : String
deriving DecidableEq, Repr

/-- `CostMonitor.get_summary` under reference semantics: it only reads
the monitor's attributes (it takes no heap and returns no heap, so it
cannot mutate any dict), and the dict fields of the result alias the
monitor's dicts. -/
def get_summary (m : Monitor) (now : String) : SummaryRef :=
  { total_cost := m.total_cost, cost_by_model := m.cost_by_model,
    cost_by_file := m.cost_by_file, timestamp := now }

/-- The per-model map a previously returned summary denotes when the
heap currently is `st`. -/
def SummaryRef.modelCosts (s : SummaryRef) (st : Store) : List (String × ℚ) :=
  st.read s.cost_by_model

/-- The per-file map a previously returned summary denotes when the
heap currently is `st`. -/
def SummaryRef.fileCosts (s : SummaryRef) (st : Store) : List (String × ℚ) :=
  st.read s.cost_by_file

/-- `CostMonitor.log_request` under reference semantics: the two dict
item assignments mutate the heap objects the monitor points to;
`self.total_cost += cost` rebinds the scalar attribute. -/
def log_request (st : Store) (m : Monitor) (model_name file_path : String)
    (input_tokens output_tokens : ℤ) (is_cached : Bool)
    (model_info : Option ModelPricing) :
    Except String (Store × Monitor × ℚ) :=
  match (match model_info with
         | some mi => Except.ok mi
         | none => get_model_info model_name : Except String ModelPricing) with
  | Except.error e => Except.error e
  | Except.ok mi =>
    let cost := calculate_cost mi input_tokens output_tokens is_cached
    let bm := st.read m.cost_by_model
    let st₁ := st.write m.cost_by_model
      (dictSet bm model_name (dictGetD bm model_name 0 + cost))
    let bf := st₁.read m.cost_by_file
    let st₂ := st₁.write m.cost_by_file
      (dictSet bf file_path (dictGetD bf file_path 0 + cost))
    Except.ok (st₂, { m with total_cost := m.total_cost + cost }, cost)

/-- Batch driver under reference semantics (failed calls are caught
and skipped, as in the pure model). -/
def runLog (st : Store) (m : Monitor) : List Request → Store × Monitor
  | [] => (st, m)
  | r :: rest =>
    match log_request st m r.model_name r.file_path r.input_tokens
        r.output_tokens r.is_cached none with
    | Except.ok (st', m', _) => runLog st' m' rest
    | Except.error _ => runLog st m rest

end Ref

/-! Helper lemmas. -/

theorem dictGet_dictSet_self (d : List (String × ℚ)) (k : String) (v : ℚ) :
    dictGet (dictSet d k v) k = some v := by
  induction d with
  | nil => simp [dictGet, dictSet]
  | cons p rest ih =>
    rcases p with ⟨k', v'⟩
    by_cases h : k' = k
    · subst h
      simp [dictGet, dictSet]
    · simp [dictGet, dictSet, h, ih]

theorem dictGet_dictSet_ne (d : List (String × ℚ)) (k k' : String) (v : ℚ)
    (h : k' ≠ k) : dictGet (dictSet d k v) k' = dictGet d k' := by
  induction d with
  | nil => simp [dictGet, dictSet, Ne.symm h]
  | cons p rest ih =>
    rcases p with ⟨k₀, v₀⟩
    by_cases h₀ : k₀ = k
    · subst h₀
      simp [dictGet, dictSet, Ne.symm h]
    · simp [dictGet, dictSet, h₀, ih]

theorem MODEL_PRICING_nonneg :
    ∀ p ∈ MODEL_PRICING, 0 ≤ p.2.input_price ∧
      0 ≤ p.2.cached_input_price ∧ 0 ≤ p.2.output_price := by
  intro p hp
  simp only [ MODEL_PRICING, List.mem_cons, List.not_mem_nil, or_false] at hp
  rcases hp with rfl | rfl | rfl | rfl | rfl <;>
    exact ⟨by norm_num, by norm_num, by norm_num⟩

theorem get_model_info_mem {n : String} {mi : ModelPricing}
    (h : get_model_info n = Except.ok mi) : ∃ p ∈ MODEL_PRICING, p.2 = mi := by
  unfold get_model_info at h
  cases hf : MODEL_PRICING.find? (fun p => p.1 == n) with
  | none => rw [hf] at h; exact absurd h (by simp)
  | some p =>
    rw [hf] at h
    injection h with h
    exact ⟨p, List.mem_of_find?_eq_some hf, h⟩

theorem get_model_info_nonneg {n : String} {mi : ModelPricing}
    (h : get_model_info n = Except.ok mi) :
    0 ≤ mi.input_price ∧ 0 ≤ mi.cached_input_price ∧ 0 ≤ mi.output_price := by
  obtain ⟨p, hp, rfl⟩ := get_model_info_mem h
  exact MODEL_PRICING_nonneg p hp

theorem calculate_cost_nonneg {mi : ModelPricing}
    (hmi : 0 ≤ mi.input_price ∧ 0 ≤ mi.cached_input_price ∧ 0 ≤ mi.output_price)
    {a b : ℤ} (ha : 0 ≤ a) (hb : 0 ≤ b) (c : Bool) :
    0 ≤ calculate_cost mi a b c := by
  unfold calculate_cost
  have ha' : (0 : ℚ) ≤ (a : ℚ) := by exact_mod_cast ha
  have hb' : (0 : ℚ) ≤ (b : ℚ) := by exact_mod_cast hb
  apply add_nonneg
  · apply mul_nonneg (div_nonneg ha' (by norm_num))
    cases c <;> simp [hmi.1, hmi.2.1]
  · exact mul_nonneg (div_nonneg hb' (by norm_num)) hmi.2.2

theorem dictGetD_dictSet_add_le (d : List (String × ℚ)) (k k' : String)
    (c : ℚ) (hc : 0 ≤ c) :
    dictGetD d k' 0 ≤ dictGetD (dictSet d k (dictGetD d k 0 + c)) k' 0 := by
  by_cases h : k' = k
  · subst h
    unfold dictGetD
    rw [dictGet_dictSet_self]
    simp only [Option.getD_some]
    linarith
  · unfold dictGetD
    rw [dictGet_dictSet_ne d k k' _ h]

theorem log_request_explicit (m : CostMonitor) (n f : String) (a b : ℤ)
    (c : Bool) (mi : ModelPricing) :
    log_request m n f a b c (some mi) =
      Except.ok
        ({ total_cost := m.total_cost + calculate_cost mi a b c,
           cost_by_model := dictSet m.cost_by_model n
             (dictGetD m.cost_by_model n 0 + calculate_cost mi a b c),
           cost_by_file := dictSet m.cost_by_file f
             (dictGetD m.cost_by_file f 0 + calculate_cost mi a b c) },
         calculate_cost mi a b c) := rfl

theorem log_request_known {n : String} {mi : ModelPricing}
    (h : get_model_info n = Except.ok mi) (m : CostMonitor) (f : String)
    (a b : ℤ) (c : Bool) :
    log_request m n f a b c none =
      Except.ok
        ({ total_cost := m.total_cost + calculate_cost mi a b c,
           cost_by_model := dictSet m.cost_by_model n
             (dictGetD m.cost_by_model n 0 + calculate_cost mi a b c),
           cost_by_file := dictSet m.cost_by_file f
             (dictGetD m.cost_by_file f 0 + calculate_cost mi a b c) },
         calculate_cost mi a b c) := by
  unfold log_request
  rw [h]

theorem log_request_unknown {n : String}
    (h : MODEL_PRICING.find? (fun p => p.1 == n) = none) (m : CostMonitor)
    (f : String) (a b : ℤ) (c : Bool) :
    log_request m n f a b c none =
      Except.error ("Unknown model: " ++ n) := by
  unfold log_request get_model_info
  rw [h]

theorem log_request_err {n e : String} (h : get_model_info n = Except.error e)
    (m : CostMonitor) (f : String) (a b : ℤ) (c : Bool) :
    log_request m n f a b c none = Except.error e := by
  unfold log_request
  rw [h]

theorem dictGetD_dictSet_same (d : List (String × ℚ)) (k : String) (v x : ℚ) :
    dictGetD (dictSet d k v) k x = v := by
  unfold dictGetD
  rw [dictGet_dictSet_self]
  rfl

theorem runLog_mono (reqs : List Request) :
    ∀ m : CostMonitor,
      (∀ r ∈ reqs, 0 ≤ r.input_tokens ∧ 0 ≤ r.output_tokens) →
      m.total_cost ≤ (runLog m reqs).1.total_cost ∧
      (∀ k, dictGetD m.cost_by_model k 0 ≤
        dictGetD (runLog m reqs).1.cost_by_model k 0) ∧
      (∀ k, dictGetD m.cost_by_file k 0 ≤
        dictGetD (runLog m reqs).1.cost_by_file k 0) := by
  induction reqs with
  | nil =>
    intro m _
    exact ⟨le_refl _, fun k => le_refl _, fun k => le_refl _⟩
  | cons r rest ih =>
    intro m h
    have hr := h r (List.mem_cons_self r rest)
    have hrest : ∀ x ∈ rest, 0 ≤ x.input_tokens ∧ 0 ≤ x.output_tokens :=
      fun x hx => h x (List.mem_cons_of_mem r hx)
    cases hg : get_model_info r.model_name with
    | error e =>
      simp only [runLog, log_request_err hg]
      exact ih m hrest
    | ok mi =>
      have hc : 0 ≤ calculate_cost mi r.input_tokens r.output_tokens r.is_cached :=
        calculate_cost_nonneg (get_model_info_nonneg hg) hr.1 hr.2 _
      simp only [runLog, log_request_known hg]
      obtain ⟨h1, h2, h3⟩ := ih _ hrest
      refine ⟨le_trans (by simp; linarith) h1,
        fun k => le_trans ?_ (h2 k), fun k => le_trans ?_ (h3 k)⟩
      · exact dictGetD_dictSet_add_le m.cost_by_model r.model_name k _ hc
      · exact dictGetD_dictSet_add_le m.cost_by_file r.file_path k _ hc

theorem runLog_sum {name : String} {mi : ModelPricing}
    (hname : get_model_info name = Except.ok mi) (reqs : List Request) :
    ∀ m : CostMonitor, (∀ r ∈ reqs, r.model_name = name) →
      (runLog m reqs).1.total_cost = m.total_cost + (runLog m reqs).2.sum ∧
      dictGetD (runLog m reqs).1.cost_by_model name 0 =
        dictGetD m.cost_by_model name 0 + (runLog m reqs).2.sum := by
  induction reqs with
  | nil =>
    intro m _
    simp [runLog]
  | cons r rest ih =>
    intro m h
    have hr : r.model_name = name := h r (List.mem_cons_self r rest)
    have hrest : ∀ x ∈ rest, x.model_name = name :=
      fun x hx => h x (List.mem_cons_of_mem r hx)
    simp only [runLog, hr, log_request_known hname]
    rcases hrun : runLog
      { total_cost := m.total_cost + calculate_cost mi r.input_tokens r.output_tokens r.is_cached,
        cost_by_model := dictSet m.cost_by_model name
          (dictGetD m.cost_by_model name 0 + calculate_cost mi r.input_tokens r.output_tokens r.is_cached),
        cost_by_file := dictSet m.cost_by_file r.file_path
          (dictGetD m.cost_by_file r.file_path 0 + calculate_cost mi r.input_tokens r.output_tokens r.is_cached) }
      rest with ⟨m'', costs⟩
    obtain ⟨h1, h2⟩ := ih _ hrest
    rw [hrun] at h1 h2
    dsimp only
    dsimp only at h1 h2
    rw [h1, h2, dictGetD_dictSet_same, List.sum_cons]
    constructor <;> ring

theorem dictOfJson_dictToJson (d : List (String × ℚ)) :
    dictOfJson (dictToJson d) = some d := by
  induction d with
  | nil => rfl
  | cons p rest ih =>
    rcases p with ⟨k, q⟩
    simp [dictToJson, dictOfJson] at ih ⊢
    exact ih

theorem toSummary_toJson (s : Summary) :
    Json.toSummary s.toJson = some s := by
  simp only [Summary.toJson, Json.toSummary, dictOfJson_dictToJson]

theorem Ref.heap_log_request_err {n e : String}
    (h : get_model_info n = Except.error e) (st : Ref.Store) (m : Ref.Monitor)
    (f : String) (a b : ℤ) (c : Bool) :
    Ref.log_request st m n f a b c none = Except.error e := by
  unfold Ref.log_request
  rw [h]

theorem Ref.heap_log_request_known {n : String} {mi : ModelPricing}
    (h : get_model_info n = Except.ok mi) (st : Ref.Store) (m : Ref.Monitor)
    (f : String) (a b : ℤ) (c : Bool) :
    Ref.log_request st m n f a b c none =
      Except.ok
        (Ref.Store.write
          (Ref.Store.write st m.cost_by_model
            (dictSet (Ref.Store.read st m.cost_by_model) n
              (dictGetD (Ref.Store.read st m.cost_by_model) n 0 +
                calculate_cost mi a b c)))
          m.cost_by_file
          (dictSet
            (Ref.Store.read
              (Ref.Store.write st m.cost_by_model
                (dictSet (Ref.Store.read st m.cost_by_model) n
                  (dictGetD (Ref.Store.read st m.cost_by_model) n 0 +
                    calculate_cost mi a b c)))
              m.cost_by_file)
            f
            (dictGetD
              (Ref.Store.read
                (Ref.Store.write st m.cost_by_model
                  (dictSet (Ref.Store.read st m.cost_by_model) n
                    (dictGetD (Ref.Store.read st m.cost_by_model) n 0 +
                      calculate_cost mi a b c)))
                m.cost_by_file)
              f 0 + calculate_cost mi a b c)),
         { m with total_cost := m.total_cost + calculate_cost mi a b c },
         calculate_cost mi a b c) := by
  unfold Ref.log_request
  rw [h]

theorem Ref.runLog_pres (reqs : List Request) :
    ∀ (st : Ref.Store) (m : Ref.Monitor),
      (Ref.runLog st m reqs).2.cost_by_model = m.cost_by_model ∧
      (Ref.runLog st m reqs).2.cost_by_file = m.cost_by_file := by
  induction reqs with
  | nil => intro st m; exact ⟨rfl, rfl⟩
  | cons r rest ih =>
    intro st m
    cases hg : get_model_info r.model_name with
    | error e =>
      simp only [Ref.runLog, Ref.heap_log_request_err hg]
      exact ih st m
    | ok mi =>
      simp only [Ref.runLog, Ref.heap_log_request_known hg]
      exact ih _ _

/-! Claim theorems. -/

/-- Claim C1: for every price record and non-negative token counts,
`calculate_cost` returns exactly
(inputTokens/1,000,000)·(cachedInputPrice if cached else inputPrice) +
(outputTokens/1,000,000)·outputPrice — it is a pure function of its
arguments — and on the record {input=0.40, cached=0.10, output=1.60}
it gives 1.20 for inputTokens=1,000,000, outputTokens=500,000,
uncached, and 0.20 for inputTokens=2,000,000, outputTokens=0, cached. -/
theorem C1_calculate_cost_formula :
    (∀ (p : ModelPricing) (a b : ℤ) (c : Bool), 0 ≤ a → 0 ≤ b →
      calculate_cost p a b c =
        ((a : ℚ) / 1000000) *
          (if c then p.cached_input_price else p.input_price) +
        ((b : ℚ) / 1000000) * p.output_price) ∧
    calculate_cost
      { input_price := 0.40, cached_input_price := 0.10, output_price := 1.60,
        description := "Affordable model balancing speed and intelligence" }
      1000000 500000 false = 1.20 ∧
    calculate_cost
      { input_price := 0.40, cached_input_price := 0.10, output_price := 1.60,
        description := "Affordable model balancing speed and intelligence" }
      2000000 0 true = 0.20 := by
  refine ⟨fun p a b c _ _ => rfl, ?_, ?_⟩
  · norm_num [calculate_cost]
  · norm_num [calculate_cost]

/-- Witness for C1 at the concrete input (3, 5, cached). -/
theorem C1_calculate_cost_formula_witness :
    (0 : ℤ) ≤ 3 ∧ (0 : ℤ) ≤ 5 ∧
    calculate_cost
      { input_price := 0.40, cached_input_price := 0.10, output_price := 1.60,
        description := "Affordable model balancing speed and intelligence" }
      3 5 true =
      ((3 : ℤ) : ℚ) / 1000000 * 0.10 + ((5 : ℤ) : ℚ) / 1000000 * 1.60 :=
  ⟨by decide, by decide,
   C1_calculate_cost_formula.1 _ 3 5 true (by decide) (by decide)⟩

/-- Claim C2: `log_request` with a model name absent from the pricing
registry (and no explicitly supplied price record) fails with the
`Unknown model` error and leaves the ledger unchanged. -/
theorem C2_unknown_model (m : CostMonitor) (n f : String) (a b : ℤ) (c : Bool)
    (h : MODEL_PRICING.find? (fun p => p.1 == n) = none) :
    log_request m n f a b c none = Except.error ("Unknown model: " ++ n) ∧
    (runLog m [{ model_name := n, file_path := f, input_tokens := a,
                 output_tokens := b, is_cached := c }]).1 = m := by
  refine ⟨log_request_unknown h m f a b c, ?_⟩
  simp only [runLog, log_request_unknown h]

/-- Witness for C2 at the unknown model name "gpt-5". -/
theorem C2_unknown_model_witness :
    MODEL_PRICING.find? (fun p => p.1 == "gpt-5") = none ∧
    log_request CostMonitor.init "gpt-5" "x.pdf" 1 2 false none =
      Except.error ("Unknown model: " ++ "gpt-5") :=
  ⟨rfl, (C2_unknown_model CostMonitor.init "gpt-5" "x.pdf" 1 2 false rfl).1⟩

/-- Claim C3: a successful `log_request` on a registry model adds the
computed cost to `total_cost`, to `cost_by_model[model]` (starting the
entry from 0 when absent, via `get(key, 0)`), and to
`cost_by_file[file]` likewise, and returns the incremental cost of
this single call. -/
theorem C3_log_request_known_model (m : CostMonitor) (n f : String)
    (a b : ℤ) (c : Bool) (mi : ModelPricing)
    (h : get_model_info n = Except.ok mi) :
    ∃ m' cost, log_request m n f a b c none = Except.ok (m', cost) ∧
      cost = calculate_cost mi a b c ∧
      m'.total_cost = m.total_cost + cost ∧
      dictGet m'.cost_by_model n = some (dictGetD m.cost_by_model n 0 + cost) ∧
      dictGet m'.cost_by_file f = some (dictGetD m.cost_by_file f 0 + cost) :=
  ⟨_, _, log_request_known h m f a b c, rfl, rfl,
   dictGet_dictSet_self _ _ _, dictGet_dictSet_self _ _ _⟩

/-- Witness for C3 on the registry model "gpt-4.1". -/
theorem C3_log_request_known_model_witness :
    get_model_info "gpt-4.1" = Except.ok
      { input_price := 2.00, cached_input_price := 0.50, output_price := 8.00,
        description := "Smartest model for complex tasks" } ∧
    ∃ m' cost,
      log_request CostMonitor.init "gpt-4.1" "a.pdf" 10 20 false none =
        Except.ok (m', cost) ∧
      cost = calculate_cost
        { input_price := 2.00, cached_input_price := 0.50, output_price := 8.00,
          description := "Smartest model for complex tasks" } 10 20 false ∧
      m'.total_cost = CostMonitor.init.total_cost + cost ∧
      dictGet m'.cost_by_model "gpt-4.1" =
        some (dictGetD CostMonitor.init.cost_by_model "gpt-4.1" 0 + cost) ∧
      dictGet m'.cost_by_file "a.pdf" =
        some (dictGetD CostMonitor.init.cost_by_file "a.pdf" 0 + cost) :=
  ⟨rfl, C3_log_request_known_model CostMonitor.init "gpt-4.1" "a.pdf"
    10 20 false _ rfl⟩

/-- Claim C4: `calculate_cost` is additive in the input-token argument:
for non-negative token counts a, b,
cost(p, a+b, 0, false) = cost(p, a, 0, false) + cost(p, b, 0, false). -/
theorem C4_input_additive (p : ModelPricing) (a b : ℤ)
    (ha : 0 ≤ a) (hb : 0 ≤ b) :
    calculate_cost p (a + b) 0 false =
      calculate_cost p a 0 false + calculate_cost p b 0 false := by
  unfold calculate_cost
  push_cast
  ring

/-- Witness for C4 at a = 3, b = 5 on the "gpt-4.1" price record. -/
theorem C4_input_additive_witness :
    (0 : ℤ) ≤ 3 ∧ (0 : ℤ) ≤ 5 ∧
    calculate_cost
      { input_price := 2.00, cached_input_price := 0.50, output_price := 8.00,
        description := "Smartest model for complex tasks" } (3 + 5) 0 false =
    calculate_cost
      { input_price := 2.00, cached_input_price := 0.50, output_price := 8.00,
        description := "Smartest model for complex tasks" } 3 0 false +
    calculate_cost
      { input_price := 2.00, cached_input_price := 0.50, output_price := 8.00,
        description := "Smartest model for complex tasks" } 5 0 false :=
  ⟨by decide, by decide,
   C4_input_additive _ 3 5 (by decide) (by decide)⟩

/-- Claim C5: starting from a fresh ledger, after N `log_request`
calls with the same registry model and N distinct file paths,
`cost_by_model[model]` equals the sum of the N returned costs, and
`total_cost` equals that same sum. -/
theorem C5_fresh_ledger_sums (name : String) (mi : ModelPricing)
    (reqs : List Request) (h : get_model_info name = Except.ok mi)
    (hall : ∀ r ∈ reqs, r.model_name = name)
    (hdist : (reqs.map Request.file_path).Nodup) :
    dictGetD (runLog CostMonitor.init reqs).1.cost_by_model name 0 =
      (runLog CostMonitor.init reqs).2.sum ∧
    (runLog CostMonitor.init reqs).1.total_cost =
      (runLog CostMonitor.init reqs).2.sum := by
  obtain ⟨h1, h2⟩ := runLog_sum h reqs CostMonitor.init hall
  constructor
  · rw [h2]
    simp [CostMonitor.init, dictGetD, dictGet]
  · rw [h1]
    simp [CostMonitor.init]

/-- Witness for C5: two requests to "gpt-4.1" on distinct files. -/
theorem C5_fresh_ledger_sums_witness :
    get_model_info "gpt-4.1" = Except.ok
      { input_price := 2.00, cached_input_price := 0.50, output_price := 8.00,
        description := "Smartest model for complex tasks" } ∧
    (∀ r ∈ [({ model_name := "gpt-4.1", file_path := "a.pdf",
               input_tokens := 10, output_tokens := 20, is_cached := false } : Request),
            { model_name := "gpt-4.1", file_path := "b.pdf",
              input_tokens := 30, output_tokens := 40, is_cached := true }],
      r.model_name = "gpt-4.1") ∧
    (([({ model_name := "gpt-4.1", file_path := "a.pdf",
          input_tokens := 10, output_tokens := 20, is_cached := false } : Request),
        { model_name := "gpt-4.1", file_path := "b.pdf",
          input_tokens := 30, output_tokens := 40, is_cached := true }]).map
        Request.file_path).Nodup ∧
    dictGetD
      (runLog CostMonitor.init
        [({ model_name := "gpt-4.1", file_path := "a.pdf",
            input_tokens := 10, output_tokens := 20, is_cached := false } : Request),
          { model_name := "gpt-4.1", file_path := "b.pdf",
            input_tokens := 30, output_tokens := 40, is_cached := true }]).1.cost_by_model
      "gpt-4.1" 0 =
      (runLog CostMonitor.init
        [({ model_name := "gpt-4.1", file_path := "a.pdf",
            input_tokens := 10, output_tokens := 20, is_cached := false } : Request),
          { model_name := "gpt-4.1", file_path := "b.pdf",
            input_tokens := 30, output_tokens := 40, is_cached := true }]).2.sum :=
  ⟨rfl, by decide, by decide,
   (C5_fresh_ledger_sums "gpt-4.1" _ _ rfl (by decide) (by decide)).1⟩

/-- Claim C6: `save_summary` writes the serialization of the current
`get_summary()` to the destination, overwriting whatever the store
previously held there (the prior content `fs dest` is arbitrary), and
reloading the destination parses back to exactly the summary taken
before persisting. -/
theorem C6_persist_roundtrip (m : CostMonitor) (now : String)
    (fs : FileStore) (dest : String) :
    (save_summary m now fs dest dest).bind Json.toSummary =
      some (get_summary m now) := by
  simp [save_summary, toSummary_toJson]

/-- Claim C7: the ledger starts empty (zero total, both dicts empty)
and successful `log_request` batches with non-negative token counts
only ever add: the total and every per-key aggregate never decrease,
and from the fresh ledger they stay non-negative. -/
theorem C7_additive_ledger :
    CostMonitor.init.total_cost = 0 ∧
    CostMonitor.init.cost_by_model = [] ∧
    CostMonitor.init.cost_by_file = [] ∧
    (∀ (m : CostMonitor) (reqs : List Request),
      (∀ r ∈ reqs, 0 ≤ r.input_tokens ∧ 0 ≤ r.output_tokens) →
      m.total_cost ≤ (runLog m reqs).1.total_cost ∧
      (∀ k, dictGetD m.cost_by_model k 0 ≤
        dictGetD (runLog m reqs).1.cost_by_model k 0) ∧
      (∀ k, dictGetD m.cost_by_file k 0 ≤
        dictGetD (runLog m reqs).1.cost_by_file k 0)) ∧
    (∀ reqs : List Request,
      (∀ r ∈ reqs, 0 ≤ r.input_tokens ∧ 0 ≤ r.output_tokens) →
      0 ≤ (runLog CostMonitor.init reqs).1.total_cost ∧
      (∀ k, 0 ≤ dictGetD (runLog CostMonitor.init reqs).1.cost_by_model k 0) ∧
      (∀ k, 0 ≤ dictGetD (runLog CostMonitor.init reqs).1.cost_by_file k 0)) := by
  refine ⟨rfl, rfl, rfl, fun m reqs h => runLog_mono reqs m h, fun reqs h => ?_⟩
  obtain ⟨h1, h2, h3⟩ := runLog_mono reqs CostMonitor.init h
  exact ⟨h1, h2, h3⟩

/-- Witness for C7: one request with non-negative token counts. -/
theorem C7_additive_ledger_witness :
    (∀ r ∈ [({ model_name := "gpt-4.1", file_path := "a.pdf",
               input_tokens := 5, output_tokens := 7, is_cached := false } : Request)],
      0 ≤ r.input_tokens ∧ 0 ≤ r.output_tokens) ∧
    CostMonitor.init.total_cost ≤
      (runLog CostMonitor.init
        [({ model_name := "gpt-4.1", file_path := "a.pdf",
            input_tokens := 5, output_tokens := 7, is_cached := false } : Request)]).1.total_cost :=
  ⟨by decide,
   (C7_additive_ledger.2.2.2.1 CostMonitor.init _ (by decide)).1⟩

/-- Claim C8 (amended): `get_summary` reads `total_cost`, the two
dicts and the clock at call time and performs no mutation (its
embedding neither takes nor returns a heap), and its timestamp is the
snapshot-creation time; however, the returned structure stores
references to the ledger's own two dicts, so the maps seen through a
previously returned summary track every later ledger mutation. -/
theorem C8_summary_snapshot (st : Ref.Store) (m : Ref.Monitor) (now : String) :
    (Ref.get_summary m now).total_cost = m.total_cost ∧
    (Ref.get_summary m now).timestamp = now ∧
    Ref.SummaryRef.modelCosts (Ref.get_summary m now) st =
      Ref.Store.read st m.cost_by_model ∧
    Ref.SummaryRef.fileCosts (Ref.get_summary m now) st =
      Ref.Store.read st m.cost_by_file ∧
    (Ref.get_summary m now).cost_by_model = m.cost_by_model ∧
    (Ref.get_summary m now).cost_by_file = m.cost_by_file ∧
    (∀ reqs : List Request,
      Ref.SummaryRef.modelCosts (Ref.get_summary m now)
          (Ref.runLog st m reqs).1 =
        Ref.Store.read (Ref.runLog st m reqs).1
          ((Ref.runLog st m reqs).2.cost_by_model) ∧
      Ref.SummaryRef.fileCosts (Ref.get_summary m now)
          (Ref.runLog st m reqs).1 =
        Ref.Store.read (Ref.runLog st m reqs).1
          ((Ref.runLog st m reqs).2.cost_by_file)) := by
  refine ⟨rfl, rfl, rfl, rfl, rfl, rfl, fun reqs => ?_⟩
  obtain ⟨h1, h2⟩ := Ref.runLog_pres reqs st m
  rw [h1, h2]
  exact ⟨rfl, rfl⟩

/-- Counterexample for C8 as stated: after one logged request the
summary is taken; a second logged request then changes the per-model
map seen through that earlier summary (from {gpt-4.1 ↦ 2} to
{gpt-4.1 ↦ 4}), so a previously returned summary is altered by later
ledger mutations. -/
theorem C8_summary_snapshot_counterexample :
    Ref.SummaryRef.modelCosts
      (Ref.get_summary
        (Ref.runLog (Ref.init []).1 (Ref.init []).2
          [{ model_name := "gpt-4.1", file_path := "a.pdf",
             input_tokens := 1000000, output_tokens := 0, is_cached := false }]).2
        "2024-01-01T00:00:00")
      (Ref.runLog (Ref.init []).1 (Ref.init []).2
        [{ model_name := "gpt-4.1", file_path := "a.pdf",
           input_tokens := 1000000, output_tokens := 0, is_cached := false },
         { model_name := "gpt-4.1", file_path := "b.pdf",
           input_tokens := 1000000, output_tokens := 0, is_cached := false }]).1
    ≠
    Ref.SummaryRef.modelCosts
      (Ref.get_summary
        (Ref.runLog (Ref.init []).1 (Ref.init []).2
          [{ model_name := "gpt-4.1", file_path := "a.pdf",
             input_tokens := 1000000, output_tokens := 0, is_cached := false }]).2
        "2024-01-01T00:00:00")
      (Ref.runLog (Ref.init []).1 (Ref.init []).2
        [{ model_name := "gpt-4.1", file_path := "a.pdf",
           input_tokens := 1000000, output_tokens := 0, is_cached := false }]).1 := by
  norm_num [Ref.runLog, Ref.log_request, Ref.init, Ref.get_summary,
    Ref.SummaryRef.modelCosts, Ref.Store.read, Ref.Store.write,
    get_model_info, MODEL_PRICING, calculate_cost, dictSet, dictGet, dictGetD,
    List.find?]

/-- Claim C9: the registry keeps the exact price constants — the
"gpt-4.1" tier has input 2.00, cached input 0.50, output 8.00 — and
every registered record has three non-negative prices. -/
theorem C9_pricing_constants :
    get_model_info "gpt-4.1" = Except.ok
      { input_price := 2.00, cached_input_price := 0.50, output_price := 8.00,
        description := "Smartest model for complex tasks" } ∧
    ∀ p ∈ MODEL_PRICING, 0 ≤ p.2.input_price ∧
      0 ≤ p.2.cached_input_price ∧ 0 ≤ p.2.output_price :=
  ⟨rfl, MODEL_PRICING_nonneg⟩

/-- Witness for C9 at the head entry of the registry. -/
theorem C9_pricing_constants_witness :
    ("gpt-4.1",
      ({ input_price := 2.00, cached_input_price := 0.50, output_price := 8.00,
         description := "Smartest model for complex tasks" } : ModelPricing))
      ∈ MODEL_PRICING ∧
    0 ≤ ({ input_price := 2.00, cached_input_price := 0.50, output_price := 8.00,
           description := "Smartest model for complex tasks" } : ModelPricing).input_price :=
  ⟨List.Mem.head _, (C9_pricing_constants.2 _ (List.Mem.head _)).1⟩

/-- Claim C10: when the caller passes an explicit price record,
`log_request` never consults the registry: it succeeds for every
model identifier (known to the registry or not) and accumulates the
computed cost under that identifier in `cost_by_model`. -/
theorem C10_explicit_price_skips_lookup (m : CostMonitor) (n f : String)
    (a b : ℤ) (c : Bool) (mi : ModelPricing) :
    ∃ m' cost, log_request m n f a b c (some mi) = Except.ok (m', cost) ∧
      cost = calculate_cost mi a b c ∧
      dictGet m'.cost_by_model n =
        some (dictGetD m.cost_by_model n 0 + cost) :=
  ⟨_, _, log_request_explicit m n f a b c mi, rfl,
   dictGet_dictSet_self _ _ _⟩
